import Mathlib

/-!
Verification of the transport and name-arbitration core of the
unreal-engine-mcp repository (src/Python/unreal_mcp_server_advanced.py and
src/Python/helpers/actor_name_manager.py), as a shallow embedding in Lean.

Bytes are modelled as `List Char`; the `json.loads`-succeeds check used by the
read loop is modelled by an executable JSON validity checker `jsonValid`
(and the read loop is additionally stated for an arbitrary parse predicate,
of which `jsonValid` is the instance used by the code).
-/

namespace UnrealMCP

/-! ## JSON validity checker: a model of whether `json.loads` succeeds.

Grammar of RFC 8259 JSON as accepted by Python `json.loads`:
a single value (object, array, string, number, `true`, `false`, `null`)
surrounded by optional whitespace. -/

def jsonWsChar (c : Char) : Bool :=
  c = ' ' || c = '\t' || c = '\n' || c = '\r'

def skipWs : List Char → List Char
  | [] => []
  | c :: cs => if jsonWsChar c then skipWs cs else c :: cs

/-- Consume the remainder of a JSON string after the opening quote.
A backslash escapes the following character. -/
def stringRest : List Char → Option (List Char)
  | [] => none
  | c :: cs =>
    if c = '"' then some cs
    else if c = '\\' then
      match cs with
      | [] => none
      | _ :: cs2 => stringRest cs2
    else stringRest cs

/-- One or more decimal digits; returns the rest. -/
def digits1 : List Char → Option (List Char)
  | [] => none
  | c :: cs => if c.isDigit then some (cs.dropWhile Char.isDigit) else none

/-- JSON integer part: optional minus, then `0` or a nonzero digit followed
by digits. -/
def intPart (s : List Char) : Option (List Char) :=
  let body : List Char → Option (List Char) := fun t =>
    match t with
    | [] => none
    | c :: cs =>
      if c = '0' then some cs
      else if c.isDigit then some (cs.dropWhile Char.isDigit)
      else none
  match s with
  | '-' :: cs => body cs
  | _ => body s

/-- Optional fraction part `.digits`. -/
def fracPart (s : List Char) : Option (List Char) :=
  match s with
  | '.' :: cs => digits1 cs
  | _ => some s

/-- Optional exponent part `[eE][+-]?digits`. -/
def expPart (s : List Char) : Option (List Char) :=
  match s with
  | c :: cs =>
    if c = 'e' || c = 'E' then
      match cs with
      | '+' :: cs2 => digits1 cs2
      | '-' :: cs2 => digits1 cs2
      | _ => digits1 cs
    else some (c :: cs)
  | [] => some []

def numberRest (s : List Char) : Option (List Char) := do
  let s ← intPart s
  let s ← fracPart s
  expPart s

/-- Expect a literal word (used for `true`, `false`, `null`). -/
def expectWord : List Char → List Char → Option (List Char)
  | [], s => some s
  | w :: ws, c :: cs => if c = w then expectWord ws cs else none
  | _ :: _, [] => none

/-- Parser modes: one JSON value; the members of an object after `{`
(at least one); the items of an array after `[` (at least one). -/
inductive PMode where
  | value
  | members
  | items

/-- Parse in the given mode, returning the unconsumed rest; `none` on
failure. `fuel` bounds the number of recursive steps; since at most two
steps happen per input character, `2 * length + 4` fuel never runs out on
a parseable input. -/
def parseStep : Nat → PMode → List Char → Option (List Char)
  | 0, _, _ => none
  | Nat.succ fuel, .value, s =>
    match s with
    | [] => none
    | c :: cs =>
      if c = '"' then stringRest cs
      else if c = '{' then
        match skipWs cs with
        | '}' :: rest => some rest
        | t => parseStep fuel .members t
      else if c = '[' then
        match skipWs cs with
        | ']' :: rest => some rest
        | t => parseStep fuel .items t
      else if c = 't' then expectWord ['r', 'u', 'e'] cs
      else if c = 'f' then expectWord ['a', 'l', 's', 'e'] cs
      else if c = 'n' then expectWord ['u', 'l', 'l'] cs
      else numberRest (c :: cs)
  | Nat.succ fuel, .members, s =>
    match s with
    | '"' :: cs =>
      match stringRest cs with
      | some rest =>
        match skipWs rest with
        | ':' :: cs2 =>
          match parseStep fuel .value (skipWs cs2) with
          | some rest2 =>
            match skipWs rest2 with
            | ',' :: cs3 => parseStep fuel .members (skipWs cs3)
            | '}' :: cs3 => some cs3
            | _ => none
          | none => none
        | _ => none
      | none => none
    | _ => none
  | Nat.succ fuel, .items, s =>
    match parseStep fuel .value s with
    | some rest =>
      match skipWs rest with
      | ',' :: cs => parseStep fuel .items (skipWs cs)
      | ']' :: cs => some cs
      | _ => none
    | none => none

/-- Model of `json.loads(s)` succeeding: exactly one JSON value with only
whitespace around it. -/
def jsonValid (s : List Char) : Bool :=
  match parseStep (2 * s.length + 4) .value (skipWs s) with
  | some rest => skipWs rest = []
  | none => false

/-! ## The read loop (`UnrealConnection.receive_full_response`).

The socket is modelled as the list of events successive `recv` calls
produce: either a chunk of bytes (an empty chunk means the peer closed
the connection) or a timeout exception. -/

inductive RecvEvent where
  | data (bytes : List Char)
  | timeoutEv
  deriving DecidableEq, Repr

/-- Outcome of `receive_full_response`:
`ok` — returned bytes; `errClosed` — raised
"Connection closed before receiving data"; `errTimeout` — raised
"Timeout receiving Unreal response"; `nores` — the loop was left by
`break` and the function fell off its end, returning Python `None`;
`blocked` — the event list was exhausted (the real socket would block),
a modelling artifact never used by the theorems. -/
inductive RecvResult where
  | ok (bytes : List Char)
  | errClosed
  | errTimeout
  | nores
  | blocked
  deriving DecidableEq, Repr

/-- The accumulate-and-try-to-parse loop of `receive_full_response`,
parameterized by the parse-success predicate (the code uses `json.loads`,
i.e. `jsonValid`). `acc` is the concatenation of the chunks received so
far. -/
def recvLoop (parseOk : List Char → Bool) : List RecvEvent → List Char → RecvResult
  | [], _ => .blocked
  | .data [] :: _, acc => if acc = [] then .errClosed else .nores
  | .data (b :: bs) :: rest, acc =>
    let acc2 := acc ++ (b :: bs)
    if parseOk acc2 then .ok acc2 else recvLoop parseOk rest acc2
  | .timeoutEv :: _, acc =>
    if acc ≠ [] ∧ parseOk acc then .ok acc else .errTimeout

/-- `receive_full_response`, checking completeness with `json.loads`. -/
def receive_full_response (events : List RecvEvent) : RecvResult :=
  recvLoop jsonValid events []

/-! ## Responses and the normalization step of `send_command`.

A remote response is a JSON object; the fields the core reads are modelled
explicitly (`none` = key absent). `result`, when present and a dict, is
modelled by the keys `safe_spawn_actor` reads or writes. -/

structure SpawnResult where
  name : Option String
  final_name : Option String
  original_name : Option String
  concurrent : Option Bool
  reason : Option String
  deriving DecidableEq, Repr

structure Response where
  status : Option String
  success : Option Bool
  error : Option String
  message : Option String
  result : Option SpawnResult
  deriving DecidableEq, Repr

/-- Python `a or b` for an optional string `a`: `b` when `a` is absent or
empty (falsy). -/
def pyOrStr (a : Option String) (b : String) : String :=
  match a with
  | some s => if s = "" then b else s
  | none => b

/-- `response.get("error") or response.get("message", "Unknown Unreal error")`. -/
def deriveErrMsg (r : Response) : String :=
  pyOrStr r.error (r.message.getD "Unknown Unreal error")

/-- The response-shape reconciliation inlined in `send_command`
(lines 154-166): a `status:"error"` response gets an `error` field if it
lacks one and is otherwise passed through; a `success:false` response is
rebuilt as a bare `{status:"error", error:<msg>}`; anything else passes
through unchanged. -/
def normalizeResponse (r : Response) : Response :=
  if r.status = some "error" then
    if r.error = none then { r with error := some (deriveErrMsg r) } else r
  else if r.success = some false then
    { status := some "error", success := none,
      error := some (deriveErrMsg r), message := none, result := none }
  else r

/-! ## `send_command` and the socket lifecycle. -/

/-- Connection state: whether `self.socket` is non-`None` (a socket object
is held) and the `self.connected` flag. -/
structure ConnState where
  sock : Bool
  connected : Bool
  deriving DecidableEq, Repr

/-- `UnrealConnection.connect`: close any existing socket, create a fresh
one (so `self.socket` is set from here on), then attempt the TCP connect,
whose outcome is the parameter `connectOk`; on failure only `connected`
is reset — the fresh socket object stays in `self.socket`. -/
def connect (_st : ConnState) (connectOk : Bool) : Bool × ConnState :=
  if connectOk then (true, ⟨true, true⟩) else (false, ⟨true, false⟩)

/-- Exception texts raised by `receive_full_response`, and the model name
for the `AttributeError` Python raises when `send_command` calls
`.decode()` on a `None` result. -/
def closedMsg : String := "Connection closed before receiving data"
def timeoutMsg : String := "Timeout receiving Unreal response"
def noneDecodeMsg : String := "NoneType object has no attribute decode"

/-- The error response built by `send_command`'s `except` clause. -/
def exnResponse (m : String) : Response :=
  { status := some "error", success := none, error := some m,
    message := none, result := none }

/-- Result of `send_command`: a returned value (`none` = Python `None`),
or the modelling artifact for an exhausted event list. -/
inductive SCResult where
  | ret (r : Option Response)
  | hang
  deriving DecidableEq, Repr

/-- `UnrealConnection.send_command`. `sendExc` is the exception `sendall`
raises, if any; `recv` is the outcome of `receive_full_response` on this
exchange; `decode` gives the `json.loads` value of returned bytes (the
read loop only returns bytes that parse). Paths:
close-existing-socket, connect (returning `None` on failure with the fresh
socket still held), send, receive, normalize, close; every exception is
absorbed into an `exnResponse` with the socket closed and cleared. -/
def send_command (_st : ConnState) (connectOk : Bool) (sendExc : Option String)
    (recv : RecvResult) (decode : List Char → Response) : SCResult × ConnState :=
  let st1 : ConnState := ⟨false, false⟩
  let c := connect st1 connectOk
  if !c.1 then (.ret none, c.2)
  else
    match sendExc with
    | some m => (.ret (some (exnResponse m)), ⟨false, false⟩)
    | none =>
      match recv with
      | .ok bs => (.ret (some (normalizeResponse (decode bs))), ⟨false, false⟩)
      | .errClosed => (.ret (some (exnResponse closedMsg)), ⟨false, false⟩)
      | .errTimeout => (.ret (some (exnResponse timeoutMsg)), ⟨false, false⟩)
      | .nores => (.ret (some (exnResponse noneDecodeMsg)), ⟨false, false⟩)
      | .blocked => (.hang, c.2)

/-! ## The actor name manager (helpers/actor_name_manager.py). -/

/-- Python `str.strip()` restricted to ASCII whitespace. -/
def pyStrip (s : String) : String :=
  ⟨((s.data.dropWhile Char.isWhitespace).reverse.dropWhile Char.isWhitespace).reverse⟩

/-- A value in a `params` dict. `"name"` carries a string; other entries
may be arbitrary JSON (`other`), which matters only to the frame
conditions. `pyStr` is `str(v)`. -/
inductive PVal where
  | str (s : String)
  | other (tag : Nat)
  deriving DecidableEq, Repr

def PVal.pyStr : PVal → String
  | .str s => s
  | .other n => "object-" ++ toString n

/-- A Python dict with string keys, as an association list (first match
wins; `pset` models `d[k] = v`, `pget` models `d.get(k)`). -/
def Params := List (String × PVal)

def pget : Params → String → Option PVal
  | [], _ => none
  | (k, v) :: ps, key => if key = k then some v else pget ps key

def pset : Params → String → PVal → Params
  | [], key, v => [(key, v)]
  | (k, w) :: ps, key, v =>
    if key = k then (k, v) :: ps else (k, w) :: pset ps key v

/-- Membership in the `_known_actors` set / presence of a counter key,
modelling Python `in`. -/
def snElem (n : String) : List String → Bool
  | [] => false
  | h :: t => if n = h then true else snElem n t

/-- `ActorNameManager` state: `_known_actors`, `_session_id`,
`_actor_counters` (an association list modelling the dict). -/
structure NameMgr where
  known : List String
  sessionId : String
  counters : List (String × Nat)
  deriving DecidableEq, Repr

def getCounter : List (String × Nat) → String → Nat
  | [], _ => 0
  | (k, c) :: cs, key => if key = k then c else getCounter cs key

def hasCounter : List (String × Nat) → String → Bool
  | [], _ => false
  | (k, _) :: cs, key => if key = k then true else hasCounter cs key

def setCounter : List (String × Nat) → String → Nat → List (String × Nat)
  | [], key, c => [(key, c)]
  | (k, c0) :: cs, key, c =>
    if key = k then (k, c) :: cs else (k, c0) :: setCounter cs key c

/-- A set-insert on the known-name list. -/
def insertName (n : String) (l : List String) : List String :=
  if snElem n l then l else n :: l

/-- `mark_actor_created`. -/
def mark_actor_created (m : NameMgr) (n : String) : NameMgr :=
  { m with known := insertName n m.known }

/-- `remove_actor`. -/
def remove_actor (m : NameMgr) (n : String) : NameMgr :=
  { m with known := m.known.filter (fun x => x ≠ n) }

/-- Response to the `find_actors_by_name` probe: `status` and the list of
actor names in `actors` (`none` = key absent or no/failed response is
handled at the call site). -/
structure FindResp where
  status : Option String
  actors : Option (List String)
  deriving DecidableEq, Repr

/-- The remote side as seen through one connection: the response each
probe or spawn command gets (`none` = `send_command` returned `None` or
raised, which `_actor_exists` swallows). -/
structure UnrealConn where
  find : String → Option FindResp
  spawn : Params → Option Response

/-- `ActorNameManager._actor_exists`: local cache first; then the remote
probe — an exact match or a name starting with `name` counts, and a
positive result is cached; any probe failure is treated as absent. -/
def actor_exists (m : NameMgr) (conn : Option UnrealConn) (name : String) :
    Bool × NameMgr :=
  if snElem name m.known then (true, m)
  else
    match conn with
    | none => (false, m)
    | some c =>
      match c.find name with
      | some fr =>
        if fr.status = some "success" then
          match fr.actors with
          | some actors =>
            if actors.any (fun a => a = name) then
              (true, { m with known := insertName name m.known })
            else if actors.any (fun a => name.isPrefixOf a) then
              (true, { m with known := insertName name m.known })
            else (false, m)
          | none => (false, m)
        else (false, m)
      | none => (false, m)

/-- Strategy 3 of `generate_unique_name`: up to `fuel` (= 1000) attempts,
each incrementing the per-base counter and probing `base_<counter>`. -/
def counterLoop (conn : Option UnrealConn) (base : String) :
    Nat → NameMgr → Option String × NameMgr
  | 0, m => (none, m)
  | Nat.succ fuel, m =>
    let c := getCounter m.counters base + 1
    let m := { m with counters := setCounter m.counters base c }
    let counterName := base ++ "_" ++ toString c
    let e := actor_exists m conn counterName
    if !e.1 then (some counterName, e.2) else counterLoop conn base fuel e.2

/-- `ActorNameManager.generate_unique_name`. `uuid8` models
`str(uuid.uuid4())[:8]`, drawn fresh by the caller. -/
def generate_unique_name (m : NameMgr) (conn : Option UnrealConn)
    (base_name : String) (uuid8 : String) : String × NameMgr :=
  let base := pyStrip base_name
  let base := if base = "" then "Actor_" ++ m.sessionId else base
  let e1 := actor_exists m conn base
  if !e1.1 then (base, e1.2)
  else
    let m := e1.2
    let sessionName := base ++ "_" ++ m.sessionId
    let e2 := actor_exists m conn sessionName
    if !e2.1 then (sessionName, e2.2)
    else
      let m := e2.2
      let m :=
        if !hasCounter m.counters base then
          { m with counters := setCounter m.counters base 0 }
        else m
      let r := counterLoop conn base 1000 m
      match r.1 with
      | some n => (n, r.2)
      | none =>
        let m := r.2
        (base ++ "_" ++ m.sessionId ++ "_" ++
          toString (getCounter m.counters base) ++ "_" ++ uuid8, m)

/-! ## `safe_spawn_actor`. -/

def prefixOfList : List Char → List Char → Bool
  | [], _ => true
  | _ :: _, [] => false
  | a :: as, b :: bs => if a = b then prefixOfList as bs else false

def subList (nd : List Char) : List Char → Bool
  | [] => prefixOfList nd []
  | c :: t => prefixOfList nd (c :: t) || subList nd t

/-- Python `nd in hay` on strings. -/
def strContains (hay nd : String) : Bool := subList nd.data hay.data

/-- `{"success": False, "status": "error", "error": msg}` — the shape of
`safe_spawn_actor`'s guard, no-response and `except` returns. -/
def spawnErrResponse (msg : String) : Response :=
  { status := some "error", success := some false, error := some msg,
    message := none, result := none }

/-- Model text for `str(KeyError("name"))`, raised by `params["name"]`
when the key is absent. -/
def keyErrMsg : String := "KeyError: name"

/-- The name-resolution step of `safe_spawn_actor`: when
`auto_unique_name` is set, `params["name"]` is overwritten with the
generated unique name (mutating the caller's dict); otherwise `params`
is untouched. -/
def resolvedParams (m : NameMgr) (c : UnrealConn) (params : Params)
    (auto : Bool) (uuid8 : String) : Params × NameMgr :=
  if auto then
    let original := (pget params "name").getD (PVal.str "Actor")
    let g := generate_unique_name m (some c) original.pyStr uuid8
    (pset params "name" (PVal.str g.1), g.2)
  else (params, m)

/-- `safe_spawn_actor`. Returns the response, the final `params` dict
(mutated in place in Python) and the manager state. On a `success`
response the resolved name is recorded and `final_name`/`original_name`
are stamped into `result`; on an error response whose message contains
`"already exists"` the name is recorded anyway and a synthetic success
annotated `concurrent` is returned; other responses pass through, with
`None` replaced by a no-response error. -/
def safe_spawn_actor (m : NameMgr) (conn : Option UnrealConn) (params : Params)
    (auto : Bool) (uuid8 : String) : Response × Params × NameMgr :=
  match conn with
  | none => (spawnErrResponse "No Unreal connection available", params, m)
  | some c =>
    let original := (pget params "name").getD (PVal.str "Actor")
    let rp := resolvedParams m c params auto uuid8
    let ps := rp.1
    let m1 := rp.2
    match c.spawn ps with
    | some r =>
      if r.status = some "success" then
        match pget ps "name" with
        | some v =>
          let fname := v.pyStr
          let m2 := mark_actor_created m1 fname
          let r2 :=
            match r.result with
            | some res =>
              let res2 := { res with
                            final_name := some fname
                            original_name := some original.pyStr }
              { r with result := some res2 }
            | none => r
          (r2, ps, m2)
        | none => (spawnErrResponse keyErrMsg, ps, m1)
      else if r.status = some "error" &&
          strContains (r.error.getD "") "already exists" then
        match pget ps "name" with
        | some v =>
          let fname := v.pyStr
          let m2 := mark_actor_created m1 fname
          let cres : SpawnResult :=
            { name := some fname, final_name := some fname,
              original_name := some original.pyStr, concurrent := some true,
              reason := some "Created by concurrent process" }
          ({ status := some "success", success := none, error := none,
             message := none, result := some cres }, ps, m2)
        | none => (spawnErrResponse keyErrMsg, ps, m1)
      else (r, ps, m1)
    | none => (spawnErrResponse "No response from Unreal", ps, m1)

/-! ## Helper lemmas. -/

lemma getCounter_setCounter (cs : List (String × Nat)) (k : String) (v : Nat) :
    getCounter (setCounter cs k v) k = v := by
  induction cs with
  | nil => simp [setCounter, getCounter]
  | cons p ps ih =>
    by_cases h : k = p.1
    · simp [setCounter, getCounter, h]
    · simp [setCounter, getCounter, h, ih]

lemma snElem_insertName_self (n : String) (l : List String) :
    snElem n (insertName n l) = true := by
  unfold insertName
  by_cases h : snElem n l = true
  · simp [h]
  · simp [h, snElem]

lemma pget_pset_self (ps : Params) (k : String) (v : PVal) :
    pget (pset ps k v) k = some v := by
  induction ps with
  | nil => simp [pset, pget]
  | cons p rest ih =>
    by_cases h : k = p.1
    · simp [pset, pget, h]
    · simp [pset, pget, h, ih]

lemma pget_pset_ne (ps : Params) (k k' : String) (v : PVal) (h : k' ≠ k) :
    pget (pset ps k v) k' = pget ps k' := by
  induction ps with
  | nil => simp [pset, pget, h]
  | cons p rest ih =>
    by_cases hk : k = p.1
    · subst hk
      simp [pset, pget, h]
    · by_cases hk' : k' = p.1
      · simp [pset, pget, hk, hk']
      · simp [pset, pget, hk, hk', ih]

/-- The claims' canonical error shape: the `status` and `error` fields of a
response. -/
def canonicalShape (r : Response) : Option String × Option String :=
  (r.status, r.error)

/-! ## Claim theorems: response normalization and transport faults. -/

/-- Claim C3: both legacy error shapes — `{status:"error", ...}` and
`{success:false, ...}` with no `status` field — are mapped by the
normalization step of `send_command` to the same canonical
`{status:"error", error:<msg>}` shape when they carry equivalent error
messages. -/
theorem normalize_round_trip (msg : String) (r1 r2 : Response)
    (h1s : r1.status = some "error")
    (h1m : r1.error = some msg ∨
      (r1.error = none ∧ r1.message.getD "Unknown Unreal error" = msg))
    (h2s : r2.status = none) (h2f : r2.success = some false)
    (h2m : pyOrStr r2.error (r2.message.getD "Unknown Unreal error") = msg) :
    canonicalShape (normalizeResponse r1) = (some "error", some msg) ∧
    canonicalShape (normalizeResponse r2) = (some "error", some msg) := by
  constructor
  · rcases h1m with h | ⟨he, hm⟩
    · simp [canonicalShape, normalizeResponse, h1s, h]
    · simp [canonicalShape, normalizeResponse, h1s, he, deriveErrMsg, pyOrStr, hm]
  · simp [canonicalShape, normalizeResponse, h2s, h2f, deriveErrMsg, h2m]

theorem normalize_round_trip_witness :
    canonicalShape (normalizeResponse ⟨some "error", none, some "boom", none, none⟩) =
      (some "error", some "boom") ∧
    canonicalShape (normalizeResponse ⟨none, some false, none, some "boom", none⟩) =
      (some "error", some "boom") :=
  normalize_round_trip "boom" _ _ rfl (Or.inl rfl) rfl rfl rfl

/-- Claim C4 counterexample: when the connect step fails, `send_command`
returns Python `None` (no value), not a normalized error response — the
claim that it returns a `{status:"error", ...}` response is false at this
input. -/
theorem send_command_connect_fail_returns_none :
    (send_command ⟨false, false⟩ false none (RecvResult.ok ['{', '}'])
      (fun _ => exnResponse "x")).1 = SCResult.ret none := rfl

/-- Claim C4, amended: if the connect step fails, `send_command` returns
no value (`None`); every fault after a successful connect — a send
exception, a premature close, a timeout, or the receive step returning
nothing — is absorbed into a normalized `{status:"error", error:<msg>}`
response rather than propagating an exception. -/
theorem send_command_fault_absorption (st : ConnState) (sendExc : Option String)
    (recv : RecvResult) (decode : List Char → Response) (m : String) :
    (send_command st false sendExc recv decode).1 = SCResult.ret none ∧
    (send_command st true (some m) recv decode).1 =
      SCResult.ret (some (exnResponse m)) ∧
    (send_command st true none RecvResult.errClosed decode).1 =
      SCResult.ret (some (exnResponse closedMsg)) ∧
    (send_command st true none RecvResult.errTimeout decode).1 =
      SCResult.ret (some (exnResponse timeoutMsg)) ∧
    (send_command st true none RecvResult.nores decode).1 =
      SCResult.ret (some (exnResponse noneDecodeMsg)) ∧
    (exnResponse m).status = some "error" :=
  ⟨rfl, rfl, rfl, rfl, rfl, rfl⟩

/-- Claim C8 counterexample: after a `send_command` call whose connect
step fails, the connection still holds a live socket object
(`self.socket` is the freshly created socket, not `None`) — the claimed
invariant "socket handle is null after every call" is false at this
input. -/
theorem send_command_socket_counterexample :
    (send_command ⟨false, false⟩ false none (RecvResult.ok ['{'])
      (fun _ => exnResponse "x")).2.sock = true := rfl

/-- Claim C8, amended: after `send_command` returns, `connected` is false
on every path; when the connect step succeeded the socket handle is also
cleared (closed and set to `None`), but when the connect step failed the
freshly created socket object remains held — it is discarded only at the
start of the next call. -/
theorem send_command_socket_lifecycle (st : ConnState) (sendExc : Option String)
    (recv : RecvResult) (decode : List Char → Response) (bs : List Char)
    (m : String) :
    (send_command st true (some m) recv decode).2 = ⟨false, false⟩ ∧
    (send_command st true none (RecvResult.ok bs) decode).2 = ⟨false, false⟩ ∧
    (send_command st true none RecvResult.errClosed decode).2 = ⟨false, false⟩ ∧
    (send_command st true none RecvResult.errTimeout decode).2 = ⟨false, false⟩ ∧
    (send_command st true none RecvResult.nores decode).2 = ⟨false, false⟩ ∧
    (send_command st false sendExc recv decode).2 = ⟨true, false⟩ :=
  ⟨rfl, rfl, rfl, rfl, rfl, rfl⟩

/-! ## Read-loop lemmas. -/

lemma recvLoop_cons_data (parseOk : List Char → Bool) (b : Char) (bs : List Char)
    (rest : List RecvEvent) (acc : List Char) :
    recvLoop parseOk (RecvEvent.data (b :: bs) :: rest) acc =
      if parseOk (acc ++ b :: bs) then RecvResult.ok (acc ++ b :: bs)
      else recvLoop parseOk rest (acc ++ b :: bs) := rfl

lemma recvLoop_timeout_eq (parseOk : List Char → Bool) (rest : List RecvEvent)
    (acc : List Char) :
    recvLoop parseOk (RecvEvent.timeoutEv :: rest) acc =
      if acc ≠ [] ∧ parseOk acc then RecvResult.ok acc
      else RecvResult.errTimeout := rfl

lemma recvLoop_closed_eq (parseOk : List Char → Bool) (rest : List RecvEvent)
    (acc : List Char) :
    recvLoop parseOk (RecvEvent.data [] :: rest) acc =
      if acc = [] then RecvResult.errClosed else RecvResult.nores := rfl

/-- Feeding the loop chunks none of whose running concatenations parse
just accumulates them. -/
lemma recvLoop_progress (parseOk : List Char → Bool) :
    ∀ (chunks : List (List Char)) (acc : List Char) (rest : List RecvEvent),
      (∀ c ∈ chunks, c ≠ []) →
      (∀ i, i < chunks.length → parseOk (acc ++ (chunks.take (i + 1)).flatten) = false) →
      recvLoop parseOk (chunks.map RecvEvent.data ++ rest) acc =
        recvLoop parseOk rest (acc ++ chunks.flatten) := by
  intro chunks
  induction chunks with
  | nil => intro acc rest _ _; simp
  | cons c cs ih =>
    intro acc rest hne hcum
    obtain ⟨b, bs, rfl⟩ := List.exists_cons_of_ne_nil (hne c (by simp))
    have h0 := hcum 0 (by simp)
    simp only [List.take, List.flatten_cons, List.flatten_nil, List.append_nil,
      List.take_zero] at h0
    rw [List.map_cons, List.cons_append, recvLoop_cons_data, if_neg (by simp [h0])]
    rw [ih (acc ++ b :: bs) rest (fun d hd => hne d (by simp [hd]))]
    · simp [List.flatten_cons]
    · intro i hi
      have := hcum (i + 1) (by simpa using Nat.succ_lt_succ hi)
      simpa [List.flatten_cons, List.append_assoc] using this

/-- If the whole document parses but no proper nonempty prefix of it does,
any full chunking of it makes the loop return exactly the document. -/
lemma recvLoop_complete (parseOk : List Char → Bool) (d : List Char)
    (hvalid : parseOk d = true)
    (hpre : ∀ i, i < d.length → 0 < i → parseOk (d.take i) = false) :
    ∀ (chunks : List (List Char)) (acc : List Char), chunks ≠ [] →
      (∀ c ∈ chunks, c ≠ []) → acc ++ chunks.flatten = d →
      recvLoop parseOk (chunks.map RecvEvent.data) acc = RecvResult.ok d := by
  intro chunks
  induction chunks with
  | nil => intro acc h; exact absurd rfl h
  | cons c cs ih =>
    intro acc _ hne hjoin
    obtain ⟨b, bs, rfl⟩ := List.exists_cons_of_ne_nil (hne c (by simp))
    rcases cs with _ | ⟨c', cs'⟩
    · have hacc : acc ++ b :: bs = d := by simpa using hjoin
      rw [List.map_cons, List.map_nil, recvLoop_cons_data, hacc, if_pos hvalid]
    · have hflat : (acc ++ b :: bs) ++ (c' :: cs').flatten = d := by
        rw [List.append_assoc]
        simpa [List.flatten_cons] using hjoin
      have hc' : c' ≠ [] := hne c' (by simp)
      have hflatne : (c' :: cs').flatten ≠ [] := by
        obtain ⟨x, xs, rfl⟩ := List.exists_cons_of_ne_nil hc'
        simp [List.flatten_cons]
      have hlt : (acc ++ b :: bs).length < d.length := by
        have hlen := congrArg List.length hflat
        simp only [List.length_append] at hlen
        simp only [List.length_append]
        have hp : 0 < (c' :: cs').flatten.length := List.length_pos.mpr hflatne
        omega
      have htake : d.take (acc ++ b :: bs).length = acc ++ b :: bs := by
        rw [← hflat]; exact List.take_left _ _
      have hpos : 0 < (acc ++ b :: bs).length := by simp
      have hfail : parseOk (acc ++ b :: bs) = false := by
        have := hpre (acc ++ b :: bs).length hlt hpos
        rwa [htake] at this
      rw [List.map_cons, recvLoop_cons_data, if_neg (by simp [hfail])]
      exact ih (acc ++ b :: bs) (by simp)
        (fun x hx => hne x (by simp [hx]))
        (by simpa [List.flatten_cons, List.append_assoc] using hjoin)

/-! ## Claim theorems: the read loop. -/

/-- Claim C2 counterexample: the complete JSON document `12` delivered as
the two chunks `1` and `2` makes `receive_full_response` return the bytes
`1`, while the single-chunk delivery returns `12` — the two deliveries do
not yield the same accumulated bytes, so the claim as stated fails. -/
theorem partial_read_counterexample :
    receive_full_response [RecvEvent.data ['1'], RecvEvent.data ['2']] =
      RecvResult.ok ['1'] ∧
    receive_full_response [RecvEvent.data ['1', '2']] =
      RecvResult.ok ['1', '2'] ∧
    jsonValid ['1', '2'] = true ∧ (['1'] : List Char) ≠ ['1', '2'] := by
  refine ⟨rfl, rfl, rfl, by decide⟩

/-- Claim C2, amended: partial-read robustness holds for every complete
JSON document no proper nonempty prefix of which is itself a complete
JSON document (true of all JSON objects, the shape the protocol sends):
every chunking of such a document into nonempty chunks yields the same
accumulated bytes — the whole document — as a single-chunk read. For
documents with a parseable proper prefix (e.g. the number `12`) the loop
instead returns that prefix. -/
theorem partial_read_robust (d : List Char) (chunks : List (List Char))
    (hchunks : chunks ≠ []) (hne : ∀ c ∈ chunks, c ≠ [])
    (hjoin : chunks.flatten = d) (hvalid : jsonValid d = true)
    (hpre : ∀ i, i < d.length → 0 < i → jsonValid (d.take i) = false) :
    receive_full_response (chunks.map RecvEvent.data) = RecvResult.ok d ∧
    receive_full_response [RecvEvent.data d] = RecvResult.ok d := by
  have hd : d ≠ [] := by
    obtain ⟨c, cs, rfl⟩ := List.exists_cons_of_ne_nil hchunks
    obtain ⟨b, bs, rfl⟩ := List.exists_cons_of_ne_nil (hne c (by simp))
    rw [← hjoin]
    simp [List.flatten_cons]
  constructor
  · exact recvLoop_complete jsonValid d hvalid hpre chunks [] hchunks hne
      (by simpa using hjoin)
  · exact recvLoop_complete jsonValid d hvalid hpre [d] [] (by simp)
      (by simpa using hd) (by simp)

theorem partial_read_robust_witness :
    receive_full_response [RecvEvent.data ['{'], RecvEvent.data ['}']] =
      RecvResult.ok ['{', '}'] ∧
    receive_full_response [RecvEvent.data ['{', '}']] =
      RecvResult.ok ['{', '}'] :=
  partial_read_robust ['{', '}'] [['{'], ['}']] (by decide)
    (by decide) (by decide) (by decide)
    (by decide)

/-- Claim C7: at the point a read timeout fires, if the bytes accumulated
so far form a valid JSON document the loop returns them as a successful
(late) response; and on a full run in which no accumulation ever parsed
(including the empty one), the timeout is surfaced as a raised timeout
failure. -/
theorem timeout_recovery :
    (∀ (acc : List Char) (rest : List RecvEvent), acc ≠ [] →
      jsonValid acc = true →
      recvLoop jsonValid (RecvEvent.timeoutEv :: rest) acc = RecvResult.ok acc) ∧
    (∀ chunks : List (List Char), (∀ c ∈ chunks, c ≠ []) →
      (∀ i, i < chunks.length → jsonValid ((chunks.take (i + 1)).flatten) = false) →
      receive_full_response (chunks.map RecvEvent.data ++ [RecvEvent.timeoutEv]) =
        RecvResult.errTimeout) := by
  constructor
  · intro acc rest hne hval
    rw [recvLoop_timeout_eq, if_pos ⟨hne, hval⟩]
  · intro chunks hne hcum
    unfold receive_full_response
    rw [recvLoop_progress jsonValid chunks [] [RecvEvent.timeoutEv] hne
      (by simpa using hcum)]
    rcases chunks with _ | ⟨c, cs⟩
    · rw [List.nil_append, List.flatten_nil, recvLoop_timeout_eq,
        if_neg (by simp)]
    · have hfail : jsonValid ((c :: cs).flatten) = false := by
        have := hcum cs.length (by simp)
        rwa [List.take_succ_cons, List.take_length] at this
      rw [List.nil_append, recvLoop_timeout_eq, if_neg]
      rintro ⟨-, h2⟩
      rw [hfail] at h2
      exact Bool.false_ne_true h2

theorem timeout_recovery_witness :
    recvLoop jsonValid [RecvEvent.timeoutEv] ['1'] = RecvResult.ok ['1'] ∧
    receive_full_response [RecvEvent.data ['{'], RecvEvent.timeoutEv] =
      RecvResult.errTimeout :=
  ⟨timeout_recovery.1 ['1'] [] (by decide) rfl,
   timeout_recovery.2 [['{']] (by decide) (by decide)⟩

/-- Claim C10: if the peer closes the connection (a zero-byte read) after
delivering chunks whose accumulations never parsed, the loop is left by
`break` and `receive_full_response` falls off its end, returning Python
`None`; `send_command` then fails decoding that `None` and reports the
absorbed exception as a generic `{status:"error", ...}` response. -/
theorem receive_nores_generic_error :
    (∀ chunks : List (List Char), chunks ≠ [] → (∀ c ∈ chunks, c ≠ []) →
      (∀ i, i < chunks.length → jsonValid ((chunks.take (i + 1)).flatten) = false) →
      receive_full_response (chunks.map RecvEvent.data ++ [RecvEvent.data []]) =
        RecvResult.nores) ∧
    (∀ (st : ConnState) (decode : List Char → Response),
      (send_command st true none RecvResult.nores decode).1 =
        SCResult.ret (some (exnResponse noneDecodeMsg)) ∧
      (exnResponse noneDecodeMsg).status = some "error") := by
  constructor
  · intro chunks hchunks hne hcum
    unfold receive_full_response
    rw [recvLoop_progress jsonValid chunks [] [RecvEvent.data []] hne
      (by simpa using hcum)]
    obtain ⟨c, cs, rfl⟩ := List.exists_cons_of_ne_nil hchunks
    obtain ⟨b, bs, rfl⟩ := List.exists_cons_of_ne_nil (hne c (by simp))
    have hfe : ((b :: bs) :: cs).flatten ≠ [] := by simp [List.flatten_cons]
    rw [List.nil_append, recvLoop_closed_eq, if_neg hfe]
  · intro st decode
    exact ⟨rfl, rfl⟩

theorem receive_nores_generic_error_witness :
    receive_full_response [RecvEvent.data ['x'], RecvEvent.data []] =
      RecvResult.nores ∧
    (send_command ⟨false, false⟩ true none RecvResult.nores
      (fun _ => exnResponse "y")).1 =
      SCResult.ret (some (exnResponse noneDecodeMsg)) :=
  ⟨receive_nores_generic_error.1 [['x']] (by decide) (by decide) (by decide),
   (receive_nores_generic_error.2 ⟨false, false⟩ (fun _ => exnResponse "y")).1⟩

/-! ## Name-manager lemmas. -/

lemma actor_exists_none (m : NameMgr) (n : String) :
    actor_exists m none n = (snElem n m.known, m) := by
  unfold actor_exists
  by_cases h : snElem n m.known <;> simp [h]

lemma setCounter_setCounter (cs : List (String × Nat)) (k : String) (a b : Nat) :
    setCounter (setCounter cs k a) k b = setCounter cs k b := by
  induction cs with
  | nil => simp [setCounter]
  | cons p ps ih =>
    by_cases h : k = p.1
    · simp [setCounter, h]
    · simp [setCounter, h, ih]

lemma counterLoop_succ (conn : Option UnrealConn) (base : String) (fuel : Nat)
    (m : NameMgr) :
    counterLoop conn base (fuel + 1) m =
      (let c := getCounter m.counters base + 1
       let m2 : NameMgr := { m with counters := setCounter m.counters base c }
       let nm := base ++ "_" ++ toString c
       let e := actor_exists m2 conn nm
       if !e.1 then (some nm, e.2) else counterLoop conn base fuel e.2) := rfl

/-- Strategy 1 with no probe: a base name that is already stripped,
nonempty and unknown is returned unchanged, with the manager untouched. -/
lemma gen_fresh (m : NameMgr) (b u : String) (hstrip : pyStrip b = b)
    (hb : b ≠ "") (hmem : snElem b m.known = false) :
    generate_unique_name m none b u = (b, m) := by
  unfold generate_unique_name
  rw [hstrip]
  simp [hb, actor_exists_none, hmem]

/-- Strategy 2 with no probe: a known base whose session-suffixed variant
is unknown resolves to the session-suffixed name. -/
lemma gen_session (m : NameMgr) (b u : String) (hstrip : pyStrip b = b)
    (hb : b ≠ "") (h1 : snElem b m.known = true)
    (h2 : snElem (b ++ "_" ++ m.sessionId) m.known = false) :
    generate_unique_name m none b u = (b ++ "_" ++ m.sessionId, m) := by
  unfold generate_unique_name
  rw [hstrip]
  simp [hb, actor_exists_none, h1, h2]

/-- Strategy 3, first iteration, with no probe: when the base and its
session variant are known, no counter exists yet and `b_1` is unknown,
the loop returns `b_1` with the counter set to 1. -/
lemma gen_counter1 (m : NameMgr) (b u : String) (hstrip : pyStrip b = b)
    (hb : b ≠ "") (h1 : snElem b m.known = true)
    (h2 : snElem (b ++ "_" ++ m.sessionId) m.known = true)
    (hc : hasCounter m.counters b = false)
    (h3 : snElem (b ++ "_" ++ "1") m.known = false) :
    generate_unique_name m none b u =
      (b ++ "_" ++ "1", { m with counters := setCounter m.counters b 1 }) := by
  have hcl : counterLoop none b 1000
      { m with counters := setCounter m.counters b 0 } =
      (some (b ++ "_" ++ "1"), { m with counters := setCounter m.counters b 1 }) := by
    rw [show (1000 : Nat) = 999 + 1 from rfl, counterLoop_succ]
    simp only [getCounter_setCounter, Nat.zero_add, setCounter_setCounter,
      actor_exists_none, show toString (1 : Nat) = "1" from rfl, h3]
    simp
  unfold generate_unique_name
  rw [hstrip]
  simp only [actor_exists_none]
  simp [hb, h1, h2, hc, hcl]

lemma string_ne_of_length_ne {a b : String} (h : a.length ≠ b.length) :
    a ≠ b := fun e => h (congrArg String.length e)

/-! ## Claim theorems: name arbitration. -/

/-- Claim C5 counterexample: the base name `" Tower"` is not in the (empty)
known set and no probe is supplied, yet `generate_unique_name` returns
`"Tower"`, not `" Tower"` unchanged — the name is stripped first, so the
claim as stated fails. -/
theorem generate_unique_name_strip_counterexample :
    snElem " Tower" (NameMgr.known ⟨[], "123456", []⟩) = false ∧
    (generate_unique_name ⟨[], "123456", []⟩ none " Tower" "u").1 = "Tower" ∧
    (" Tower" : String) ≠ "Tower" := by
  refine ⟨rfl, by decide, by decide⟩

/-- Claim C5, amended: for every base name that equals its own
whitespace-stripped form, is nonempty, and is not in `KnownNameSet`, and
with no remote probe supplied, `generate_unique_name` returns the base
name unchanged (and leaves the manager state untouched). Names with
surrounding whitespace are first stripped, and an (all-)whitespace name is
replaced by a session-qualified default. -/
theorem generate_unique_name_fresh (m : NameMgr) (b u : String)
    (hstrip : pyStrip b = b) (hb : b ≠ "")
    (hmem : snElem b m.known = false) :
    generate_unique_name m none b u = (b, m) :=
  gen_fresh m b u hstrip hb hmem

theorem generate_unique_name_fresh_witness :
    generate_unique_name ⟨["Other"], "123456", []⟩ none "Tower" "u" =
      ("Tower", ⟨["Other"], "123456", []⟩) :=
  generate_unique_name_fresh ⟨["Other"], "123456", []⟩ "Tower" "u"
    (by decide) (by decide) (by decide)

/-- Claim C6: starting from an empty known set with no probe, resolving
`"Tower"`, marking it created, resolving again, marking created, and
resolving a third time yields exactly `"Tower"`, then
`"Tower_<sessionToken>"`, then `"Tower_1"` (for the code's six-digit
session token). -/
theorem tower_escalation (s u1 u2 u3 : String) (g1 g2 g3 : String × NameMgr)
    (hs : s.length = 6)
    (h1 : g1 = generate_unique_name ⟨[], s, []⟩ none "Tower" u1)
    (h2 : g2 = generate_unique_name (mark_actor_created g1.2 g1.1) none "Tower" u2)
    (h3 : g3 = generate_unique_name (mark_actor_created g2.2 g2.1) none "Tower" u3) :
    g1.1 = "Tower" ∧ g2.1 = "Tower_" ++ s ∧ g3.1 = "Tower_1" := by
  have hTs : ("Tower_" ++ s) ≠ "Tower" := by
    refine string_ne_of_length_ne ?_
    simp only [String.length_append, hs]
    decide
  have hT1s : ("Tower_1" : String) ≠ "Tower_" ++ s := by
    refine string_ne_of_length_ne ?_
    simp only [String.length_append, hs]
    decide
  have hT1T : ("Tower_1" : String) ≠ "Tower" := by decide
  have e1 : generate_unique_name ⟨[], s, []⟩ none "Tower" u1 =
      ("Tower", ⟨[], s, []⟩) :=
    gen_fresh ⟨[], s, []⟩ "Tower" u1 (by decide) (by decide) rfl
  have e2 : generate_unique_name ⟨["Tower"], s, []⟩ none "Tower" u2 =
      ("Tower_" ++ s, ⟨["Tower"], s, []⟩) :=
    gen_session ⟨["Tower"], s, []⟩ "Tower" u2 (by decide) (by decide)
      rfl (by simp [snElem, hTs])
  have hm2 : mark_actor_created (⟨["Tower"], s, []⟩ : NameMgr)
      ("Tower_" ++ s) = ⟨["Tower_" ++ s, "Tower"], s, []⟩ := by
    simp [mark_actor_created, insertName, snElem, hTs]
  have e3 : generate_unique_name ⟨["Tower_" ++ s, "Tower"], s, []⟩
      none "Tower" u3 =
      ("Tower_1", ⟨["Tower_" ++ s, "Tower"], s, [("Tower", 1)]⟩) :=
    gen_counter1 ⟨["Tower_" ++ s, "Tower"], s, []⟩ "Tower" u3 (by decide)
      (by decide) (by simp [snElem, Ne.symm hTs]) (by simp [snElem]) rfl
      (by simp [snElem, hT1s, hT1T])
  have c1 : g1.1 = "Tower" := by rw [h1, e1]
  have hg2 : g2 = generate_unique_name ⟨["Tower"], s, []⟩ none "Tower" u2 := by
    rw [h2, h1, e1]
    rfl
  have c2 : g2.1 = "Tower_" ++ s := by rw [hg2, e2]
  have hg3 : g3 = generate_unique_name
      (mark_actor_created ⟨["Tower"], s, []⟩ ("Tower_" ++ s)) none "Tower" u3 := by
    rw [h3, hg2, e2]
  have c3 : g3.1 = "Tower_1" := by rw [hg3, hm2, e3]
  exact ⟨c1, c2, c3⟩

theorem tower_escalation_witness :
    (generate_unique_name ⟨[], "123456", []⟩ none "Tower" "a").1 = "Tower" ∧
    (generate_unique_name
      (mark_actor_created
        (generate_unique_name ⟨[], "123456", []⟩ none "Tower" "a").2
        (generate_unique_name ⟨[], "123456", []⟩ none "Tower" "a").1)
      none "Tower" "b").1 = "Tower_" ++ "123456" ∧
    (generate_unique_name
      (mark_actor_created
        (generate_unique_name
          (mark_actor_created
            (generate_unique_name ⟨[], "123456", []⟩ none "Tower" "a").2
            (generate_unique_name ⟨[], "123456", []⟩ none "Tower" "a").1)
          none "Tower" "b").2
        (generate_unique_name
          (mark_actor_created
            (generate_unique_name ⟨[], "123456", []⟩ none "Tower" "a").2
            (generate_unique_name ⟨[], "123456", []⟩ none "Tower" "a").1)
          none "Tower" "b").1)
      none "Tower" "c").1 = "Tower_1" :=
  tower_escalation "123456" "a" "b" "c" _ _ _ (by decide) rfl rfl rfl

/-! ## `safe_spawn_actor` lemmas. -/

/-- The final `params` dict returned by `safe_spawn_actor` is, on every
branch, exactly the dict produced by the name-resolution step. -/
lemma safe_spawn_params_all (m : NameMgr) (c : UnrealConn) (params : Params)
    (auto : Bool) (u : String) :
    (safe_spawn_actor m (some c) params auto u).2.1 =
      (resolvedParams m c params auto u).1 := by
  simp only [safe_spawn_actor]
  rcases hsp : c.spawn (resolvedParams m c params auto u).1 with _ | r
  · simp [hsp]
  · simp only [hsp]
    split
    · split <;> rfl
    · split
      · split <;> rfl
      · rfl

/-- The success branch of `safe_spawn_actor` with a caller-supplied name:
the returned status is the remote `success` and the name is recorded. -/
lemma safe_spawn_success (m : NameMgr) (c : UnrealConn) (X u : String)
    (r : Response) (hsp : c.spawn [("name", PVal.str X)] = some r)
    (hst : r.status = some "success") :
    (safe_spawn_actor m (some c) [("name", PVal.str X)] false u).1.status =
      some "success" ∧
    (safe_spawn_actor m (some c) [("name", PVal.str X)] false u).2.2 =
      mark_actor_created m X := by
  simp only [safe_spawn_actor, resolvedParams, Bool.false_eq_true, if_false]
  rw [hsp]
  simp only [hst, pget]
  rcases hres : r.result with _ | res <;> simp [hres, hst, PVal.pyStr]

/-- The "already exists" branch of `safe_spawn_actor` with a
caller-supplied name: a synthetic success is returned and the name is
recorded. -/
lemma safe_spawn_already_exists (m : NameMgr) (c : UnrealConn) (X u : String)
    (r : Response) (hsp : c.spawn [("name", PVal.str X)] = some r)
    (hst : r.status = some "error")
    (hcont : strContains (r.error.getD "") "already exists" = true) :
    (safe_spawn_actor m (some c) [("name", PVal.str X)] false u).1.status =
      some "success" ∧
    (safe_spawn_actor m (some c) [("name", PVal.str X)] false u).2.2 =
      mark_actor_created m X := by
  simp only [safe_spawn_actor, resolvedParams, Bool.false_eq_true, if_false]
  rw [hsp]
  simp [hst, hcont, pget, PVal.pyStr]

/-! ## Claim theorems: convergent creation and the params frame. -/

/-- Claim C1: (1) whenever the remote spawn command answers with a
normalized error response whose message contains `"already exists"`,
`safe_spawn_actor` returns a success response (`status = "success"`)
annotated `concurrent`, and the resolved name is recorded in the known
set; (2) running the creation workflow twice for the same intended name,
where the first remote response is a success and the second reports
`"already exists"`, yields success both times, with the name in the known
set after either call. -/
theorem safe_spawn_convergent :
    (∀ (m : NameMgr) (c : UnrealConn) (params : Params) (auto : Bool)
        (u : String) (r : Response) (v : PVal),
      c.spawn (resolvedParams m c params auto u).1 = some r →
      r.status = some "error" →
      strContains (r.error.getD "") "already exists" = true →
      pget (resolvedParams m c params auto u).1 "name" = some v →
      (safe_spawn_actor m (some c) params auto u).1.status = some "success" ∧
      ((safe_spawn_actor m (some c) params auto u).1.result.map
        SpawnResult.concurrent) = some (some true) ∧
      snElem v.pyStr (safe_spawn_actor m (some c) params auto u).2.2.known =
        true) ∧
    (∀ (m : NameMgr) (c1 c2 : UnrealConn) (X u1 u2 : String) (r1 r2 : Response),
      c1.spawn [("name", PVal.str X)] = some r1 →
      r1.status = some "success" →
      c2.spawn [("name", PVal.str X)] = some r2 →
      r2.status = some "error" →
      strContains (r2.error.getD "") "already exists" = true →
      (safe_spawn_actor m (some c1) [("name", PVal.str X)] false u1).1.status =
        some "success" ∧
      snElem X
        (safe_spawn_actor m (some c1) [("name", PVal.str X)] false u1).2.2.known =
        true ∧
      (safe_spawn_actor
        (safe_spawn_actor m (some c1) [("name", PVal.str X)] false u1).2.2
        (some c2) [("name", PVal.str X)] false u2).1.status = some "success" ∧
      snElem X
        (safe_spawn_actor
          (safe_spawn_actor m (some c1) [("name", PVal.str X)] false u1).2.2
          (some c2) [("name", PVal.str X)] false u2).2.2.known = true) := by
  constructor
  · intro m c params auto u r v hsp herr hcont hname
    simp only [safe_spawn_actor]
    rw [hsp]
    simp [herr, hcont, hname, mark_actor_created, snElem_insertName_self]
  · intro m c1 c2 X u1 u2 r1 r2 hsp1 hst1 hsp2 hst2 hcont2
    obtain ⟨hs1, hk1⟩ := safe_spawn_success m c1 X u1 r1 hsp1 hst1
    obtain ⟨hs2, hk2⟩ := safe_spawn_already_exists
      (safe_spawn_actor m (some c1) [("name", PVal.str X)] false u1).2.2
      c2 X u2 r2 hsp2 hst2 hcont2
    refine ⟨hs1, ?_, hs2, ?_⟩
    · rw [hk1]
      exact snElem_insertName_self X m.known
    · rw [hk2]
      exact snElem_insertName_self X _

theorem safe_spawn_convergent_witness :
    (safe_spawn_actor ⟨[], "123456", []⟩
      (some ⟨fun _ => none,
        fun _ => some ⟨some "error", none, some "Actor already exists", none, none⟩⟩)
      [("name", PVal.str "X")] false "u").1.status = some "success" ∧
    snElem "X"
      (safe_spawn_actor ⟨[], "123456", []⟩
        (some ⟨fun _ => none,
          fun _ => some ⟨some "error", none, some "Actor already exists", none, none⟩⟩)
        [("name", PVal.str "X")] false "u").2.2.known = true ∧
    (safe_spawn_actor ⟨[], "123456", []⟩
      (some ⟨fun _ => none, fun _ => some ⟨some "success", none, none, none, none⟩⟩)
      [("name", PVal.str "Y")] false "u").1.status = some "success" := by
  have h1 := safe_spawn_convergent.1 ⟨[], "123456", []⟩
    ⟨fun _ => none,
      fun _ => some ⟨some "error", none, some "Actor already exists", none, none⟩⟩
    [("name", PVal.str "X")] false "u"
    ⟨some "error", none, some "Actor already exists", none, none⟩
    (PVal.str "X") rfl rfl (by decide) rfl
  have h2 := safe_spawn_convergent.2 ⟨[], "123456", []⟩
    ⟨fun _ => none, fun _ => some ⟨some "success", none, none, none, none⟩⟩
    ⟨fun _ => none,
      fun _ => some ⟨some "error", none, some "Actor already exists", none, none⟩⟩
    "Y" "u" "u" ⟨some "success", none, none, none, none⟩
    ⟨some "error", none, some "Actor already exists", none, none⟩
    rfl rfl rfl rfl (by decide)
  exact ⟨h1.1, h1.2.2, h2.1⟩

/-- Claim C9: with `auto_unique_name` set, `safe_spawn_actor` mutates the
caller's `params` dict in place: its `"name"` entry is overwritten with
the resolved unique name (before the spawn command is sent), and every
other entry is left unchanged. -/
theorem safe_spawn_params_mutation (m : NameMgr) (c : UnrealConn)
    (params : Params) (u : String) :
    (safe_spawn_actor m (some c) params true u).2.1 =
      pset params "name" (PVal.str (generate_unique_name m (some c)
        ((pget params "name").getD (PVal.str "Actor")).pyStr u).1) ∧
    pget (safe_spawn_actor m (some c) params true u).2.1 "name" =
      some (PVal.str (generate_unique_name m (some c)
        ((pget params "name").getD (PVal.str "Actor")).pyStr u).1) ∧
    (∀ k, k ≠ "name" →
      pget (safe_spawn_actor m (some c) params true u).2.1 k = pget params k) := by
  have h0 : (safe_spawn_actor m (some c) params true u).2.1 =
      pset params "name" (PVal.str (generate_unique_name m (some c)
        ((pget params "name").getD (PVal.str "Actor")).pyStr u).1) := by
    rw [safe_spawn_params_all]
    rfl
  refine ⟨h0, ?_, ?_⟩
  · rw [h0, pget_pset_self]
  · intro k hk
    rw [h0, pget_pset_ne _ _ _ _ hk]

theorem safe_spawn_params_mutation_witness :
    (safe_spawn_actor ⟨[], "123456", []⟩
      (some ⟨fun _ => none, fun _ => none⟩)
      [("name", PVal.str "T"), ("kind", PVal.other 7)] true "u").2.1 =
      pset [("name", PVal.str "T"), ("kind", PVal.other 7)] "name"
        (PVal.str (generate_unique_name ⟨[], "123456", []⟩
          (some ⟨fun _ => none, fun _ => none⟩) "T" "u").1) ∧
    pget (safe_spawn_actor ⟨[], "123456", []⟩
      (some ⟨fun _ => none, fun _ => none⟩)
      [("name", PVal.str "T"), ("kind", PVal.other 7)] true "u").2.1 "kind" =
      pget [("name", PVal.str "T"), ("kind", PVal.other 7)] "kind" :=
  ⟨(safe_spawn_params_mutation ⟨[], "123456", []⟩
      ⟨fun _ => none, fun _ => none⟩
      [("name", PVal.str "T"), ("kind", PVal.other 7)] "u").1,
   (safe_spawn_params_mutation ⟨[], "123456", []⟩
      ⟨fun _ => none, fun _ => none⟩
      [("name", PVal.str "T"), ("kind", PVal.other 7)] "u").2.2 "kind"
     (by decide)⟩

end UnrealMCP
